import Mathlib

/-
Verification of the PaperBee paper-ingestion pipeline.

Shallow embedding of the core of `PaperBee/papers`:
  - `papers_finder.py` (`PapersFinder.find_and_process_papers`, `cleanup_files`),
  - `utils.py` (`ArticlesProcessor`),
  - `llm_filtering.py` (`LLMFilter.is_relevant`).

Python strings are modelled as `List Char`; Python string primitives
(`find`, slicing, `split`, `replace`, `strip`, `startswith`, `in`) are
given faithful executable counterparts below.  Effectful calls (the NCBI
DOI lookup, the LLM backends, the findpapers searches) are modelled as
explicit parameters: an oracle function for the lookup, `Except`-valued
results for calls that can raise.
-/

abbrev Str := List Char

def chars (s : String) : Str := s.toList

/-- The apostrophe character (used in the keyword-tag markers of
`ArticlesProcessor._process_keywords`). -/
def apos : Char := Char.ofNat 39

/-- Python `s.startswith(pat)` : does `pat` match at the head of `s`?
(arguments: pattern first, then the string). -/
def startsWith : Str → Str → Bool
  | [], _ => true
  | _ :: _, [] => false
  | c :: cs, d :: ds => c == d && startsWith cs ds

/-- Index of the first occurrence of `pat` in `s` (Python `s.find(pat)`
restricted to the found case); `none` when `pat` does not occur. -/
def findSub (pat : Str) : Str → Option Nat
  | [] => if startsWith pat [] then some 0 else none
  | c :: rest =>
    if startsWith pat (c :: rest) then some 0
    else (findSub pat rest).map (· + 1)

/-- Python `pat in s` (substring containment). -/
def strContains (s pat : Str) : Bool := (findSub pat s).isSome

/-- Python `s.find(pat)`: first index of occurrence, `-1` when absent. -/
def pyFind (pat s : Str) : Int :=
  match findSub pat s with
  | some i => (i : Int)
  | none => -1

/-- Python `s[i:]` with Python's negative-index semantics:
a negative `i` counts from the end (clamped at the start). -/
def pySliceFrom (s : Str) (i : Int) : Str :=
  if 0 ≤ i then s.drop i.toNat
  else s.drop ((s.length : Int) + i).toNat

/-- Python `s.strip()` (whitespace removed from both ends). -/
def stripWs (s : Str) : Str :=
  ((s.dropWhile Char.isWhitespace).reverse.dropWhile Char.isWhitespace).reverse

/-- One step of Python `s.replace(pat, rep)`: fuelled left-to-right
non-overlapping replacement of every occurrence. -/
def replaceSubAux (pat rep : Str) : Nat → Str → Str
  | 0, s => s
  | fuel + 1, s =>
    match findSub pat s with
    | none => s
    | some i => s.take i ++ rep ++ replaceSubAux pat rep fuel (s.drop (i + pat.length))

/-- Python `s.replace(pat, rep)` for a non-empty `pat`. -/
def replaceSub (pat rep s : Str) : Str := replaceSubAux pat rep s.length s

/-- The last chunk of Python `s.split(sep)` (i.e. `s.split(sep)[-1]`):
repeatedly consume through the first occurrence of `sep`. -/
def pySplitLastAux (sep : Str) : Nat → Str → Str
  | 0, s => s
  | fuel + 1, s =>
    match findSub sep s with
    | none => s
    | some i => pySplitLastAux sep fuel (s.drop (i + sep.length))

/-- Python `s.split(sep)[-1]` for a non-empty `sep`. -/
def pySplitLast (sep s : Str) : Str := pySplitLastAux sep s.length s

/-- Python `s.split(c)` on a single-character separator (keeps empty chunks). -/
def splitChar (c : Char) : Str → List Str
  | [] => [[]]
  | d :: ds =>
    if d == c then [] :: splitChar c ds
    else
      match splitChar c ds with
      | h :: t => (d :: h) :: t
      | [] => [[d]]

/-- Python truthiness of a string. -/
def truthyStr (s : Str) : Bool := !s.isEmpty

/-- Python truthiness of an optional string (`None` and `""` are falsy). -/
def truthyOptStr : Option Str → Bool
  | none => false
  | some s => truthyStr s

/-- Python `a or b` on optional strings. -/
def pyOr (a b : Option Str) : Option Str :=
  match a with
  | some s => if truthyStr s then some s else b
  | none => b

/-- Python `x in l` for a list of strings. -/
def listContainsStr (l : List Str) (x : Str) : Bool := decide (x ∈ l)

/-- Python `s.lower()` (ASCII lowering, as used on the LLM replies). -/
def lowerStr (s : Str) : Str := s.map Char.toLower

/- ------------------------------------------------------------------
   Data model: the raw paper record (`article` dict) as consumed by the
   identifier-resolution stage of `PapersFinder.find_and_process_papers`
   and by `ArticlesProcessor`.
   ------------------------------------------------------------------ -/

/-- The raw `keywords` field: the upstream JSON may carry a list of
strings, a plain string, or something else (handled by
`ArticlesProcessor._process_keywords`). -/
inductive KeywordsField where
  | list (l : List Str)
  | str (s : Str)
  | other
deriving DecidableEq

/-- A raw paper record (the `article` dict of `find_and_process_papers`).
`doi` and `DOI` are the two raw identifier keys probed by strategy 1;
`url` is the resolved-URL slot written by the resolution cascade. -/
structure Article where
  title : Str
  publication_date : Str
  databases : List Str
  keywords : KeywordsField
  urls : List Str
  doi : Option Str
  DOI : Option Str
  url : Str
deriving DecidableEq

/- ------------------------------------------------------------------
   Identifier Resolver: the DOI/URL cascade of
   `PapersFinder.find_and_process_papers` (papers_finder.py lines 209-298).
   ------------------------------------------------------------------ -/

/-- Strategy 1 helper: `existing_doi.replace("doi:", "").strip()`. -/
def cleanDoi (s : Str) : Str := stripWs (replaceSub (chars "doi:") [] s)

/-- Strategy 2, per candidate URL (the body of the `for url in
article.get("urls", [])` loop): first branch accepts a URL containing
`doi.org` and `/10.` unchanged; second branch reconstructs
`https://doi.org/<part>` from a `/doi/10.` URL when the part after the
last `/doi/` split starts with `10.`; third branch rewrites `dx.doi.org`
to `doi.org`. `none` means the loop moves on to the next URL. -/
def resolveUrlDoi (url : Str) : Option Str :=
  if strContains url (chars "doi.org") && strContains url (chars "/10.") then
    some url
  else if strContains url (chars "/doi/10.") then
    let doiPart := pySplitLast (chars "/doi/") url
    if truthyStr doiPart && startsWith (chars "10.") doiPart then
      some (chars "https://doi.org/" ++ doiPart)
    else none
  else if strContains url (chars "dx.doi.org") then
    some (replaceSub (chars "dx.doi.org") (chars "doi.org") url)
  else none

/-- Strategy 2: scan the candidate URL list, first per-URL resolution wins. -/
def strategy2 (urls : List Str) : Option Str := urls.findSome? resolveUrlDoi

/-- `search_title`: `title.replace(" ", "+").replace("(", "").replace(")", "")[:150]`. -/
def searchTitle (t : Str) : Str :=
  (replaceSub (chars ")") [] (replaceSub (chars "(") [] (replaceSub (chars " ") (chars "+") t))).take 150

/-- Strategy 4 fallback when no candidate URL qualifies: the synthesized
database-appropriate search URL. -/
def fallbackSearchUrl (a : Article) : Str :=
  let st := searchTitle a.title
  if listContainsStr a.databases (chars "PubMed") then
    chars "https://pubmed.ncbi.nlm.nih.gov/?term=" ++ st
  else if listContainsStr a.databases (chars "bioRxiv") || listContainsStr a.databases (chars "biorxiv") then
    chars "https://www.biorxiv.org/search/" ++ st
  else if listContainsStr a.databases (chars "ArXiv") || listContainsStr a.databases (chars "arxiv") then
    chars "https://arxiv.org/search/?query=" ++ st
  else
    chars "https://scholar.google.com/scholar?q=" ++ st

/-- Strategy 4: first candidate URL that starts with `http` and is not
already a `https://doi.org` link; otherwise the synthesized search URL.
The `false` flag records that the article lands in `articles_without_urls`. -/
def resolveStage4 (a : Article) : Article × Bool :=
  match a.urls.find? (fun u => startsWith (chars "http") u && !startsWith (chars "https://doi.org") u) with
  | some u => ({ a with url := u }, false)
  | none => ({ a with url := fallbackSearchUrl a }, false)

/-- Strategy 3: PubMed-only title lookup. `oracle` models
`PubMedClient.get_doi_from_title`; an exception (caught in the source) or
a `None` result are both `none`. -/
def resolveStage3 (oracle : Str → Option Str) (a : Article) : Article × Bool :=
  if listContainsStr a.databases (chars "PubMed") then
    match oracle a.title with
    | some d =>
      if truthyStr d && truthyStr (stripWs d) then
        let clean := cleanDoi d
        if startsWith (chars "10.") clean then
          ({ a with url := chars "https://doi.org/" ++ clean }, true)
        else resolveStage4 a
      else resolveStage4 a
    | none => resolveStage4 a
  else resolveStage4 a

/-- Strategies 2–4 (entered when strategy 1 does not fire). -/
def resolveStage2 (oracle : Str → Option Str) (a : Article) : Article × Bool :=
  match strategy2 a.urls with
  | some u => ({ a with url := u }, true)
  | none => resolveStage3 oracle a

/-- The full per-article resolution cascade (strategies 1–4).  The `Bool`
is `true` iff the article was appended to `articles_with_urls`
(strategies 1–3, "has proper DOI") and `false` for `articles_without_urls`
(strategy 4, "fallback"). -/
def resolveArticle (oracle : Str → Option Str) (a : Article) : Article × Bool :=
  match pyOr a.doi a.DOI with
  | some s =>
    if truthyStr s && truthyStr (stripWs s) then
      let clean := cleanDoi s
      if startsWith (chars "10.") clean then
        ({ a with url := chars "https://doi.org/" ++ clean }, true)
      else resolveStage2 oracle a
    else resolveStage2 oracle a
  | none => resolveStage2 oracle a

/-- The loop body: append the resolved article to `articles_with_urls`
or `articles_without_urls` according to its flag. -/
def stageStep (oracle : Str → Option Str) (acc : List Article × List Article) (a : Article) :
    List Article × List Article :=
  let r := resolveArticle oracle a
  if r.2 then (acc.1 ++ [r.1], acc.2) else (acc.1, acc.2 ++ [r.1])

/-- The identifier-resolution stage:
`articles = articles_with_urls + articles_without_urls`. -/
def identifierStage (oracle : Str → Option Str) (arts : List Article) : List Article :=
  let p := arts.foldl (stageStep oracle) ([], [])
  p.1 ++ p.2

/- ------------------------------------------------------------------
   Normalizer: `ArticlesProcessor` (utils.py).
   ------------------------------------------------------------------ -/

/-- `ArticlesProcessor.extract_doi`: `url[url.find("10."):]`. -/
def extract_doi (url : Str) : Str := pySliceFrom url (pyFind (chars "10.") url)

/-- `ArticlesProcessor.determine_preprint_status`:
`"FALSE" if "PubMed" in dbs else "TRUE"`. -/
def determine_preprint_status (dbs : List Str) : Str :=
  if listContainsStr dbs (chars "PubMed") then chars "FALSE" else chars "TRUE"

/-- One element of `ArticlesProcessor._process_keywords`'s list branch:
strip 1–2 leading tag-marker characters from tokens that look tagged. -/
def processKeywordItem (kw : Str) : Str :=
  if kw.length > 2 &&
      (startsWith (chars "[\"") kw || startsWith ['[', apos] kw ||
        startsWith (chars "[") kw || startsWith (chars "\"") kw || startsWith [apos] kw) then
    if startsWith (chars "[\"") kw || startsWith ['[', apos] kw then kw.drop 2
    else kw.drop 1
  else kw

/-- `ArticlesProcessor._process_keywords`. -/
def process_keywords : KeywordsField → Str
  | KeywordsField.list l => List.intercalate (chars ", ") (l.map processKeywordItem)
  | KeywordsField.str s => s
  | KeywordsField.other => []

/-- `ArticlesProcessor._extract_primary_source` (list branch; the raw
`databases` field is always a list in this embedding). -/
def extract_primary_source (dbs : List Str) : Str :=
  if listContainsStr dbs (chars "PubMed") then chars "PubMed"
  else if listContainsStr dbs (chars "bioRxiv") then chars "bioRxiv"
  else if listContainsStr dbs (chars "ArXiv") then chars "ArXiv"
  else
    match dbs with
    | d :: _ => d
    | [] => chars "Unknown"

/-- The canonical 9-column schema hard-coded in `ArticlesProcessor.__init__`
for the empty-input case (utils.py lines 37–40). -/
def emptyColumns : List Str :=
  [chars "DOI", chars "Date", chars "PostedDate", chars "IsPreprint",
    chars "Title", chars "Keywords", chars "Source", chars "Preprint", chars "URL"]

/-- The column order selected by `ArticlesProcessor.select_last_columns`
(utils.py lines 115–127). -/
def finalColumns : List Str :=
  [chars "DOI", chars "Date", chars "PostedDate", chars "IsPreprint",
    chars "Title", chars "Keywords", chars "Source", chars "Preprint", chars "URL"]

/-- One canonical row, cells in `finalColumns` order.  The `Preprint`
column is `None` in the source (`self.articles["Preprint"] = None`),
hence the cell type `Option Str`. -/
def canonicalRow (today : Str) (a : Article) : List (Option Str) :=
  [some (extract_doi a.url), some today, some a.publication_date,
    some (determine_preprint_status a.databases), some a.title,
    some (process_keywords a.keywords), some (extract_primary_source a.databases),
    none, some a.url]

/-- A tabular result (the shape of the processed DataFrame): a header of
column names and one cell-list per row. -/
structure Frame where
  header : List Str
  rows : List (List (Option Str))
deriving DecidableEq

/-- `ArticlesProcessor`: empty input short-circuits to the empty frame
with the full schema; otherwise every article becomes one canonical row. -/
def articlesProcessor (arts : List Article) (today : Str) : Frame :=
  if arts.isEmpty then { header := emptyColumns, rows := [] }
  else { header := finalColumns, rows := arts.map (canonicalRow today) }

/- ------------------------------------------------------------------
   Source adapter orchestration: the separate-queries branch of
   `find_and_process_papers` (papers_finder.py lines 149-204), and
   `cleanup_files` / the date bookkeeping of `__init__`.
   ------------------------------------------------------------------ -/

/-- The separate-queries search flow.  `pubArxSearch` models the primary
(non-bioRxiv) `findpapers.search` plus the read of its result file — not
wrapped in any `try`.  `biorxivSearch` models the bioRxiv sub-search:
`Except.error` is a raised exception (caught in the source), `Except.ok
none` is "search file not created", `Except.ok (some l)` is a successful
search.  The result is the concatenation `articles_pub_arx_dict +
articles_biorxiv_dict`. -/
def separateSearch (databases : List Str) (query_biorxiv : Option Str)
    (pubArxSearch : Except Unit (List Article))
    (biorxivSearch : Except Unit (Option (List Article))) : Except Unit (List Article) :=
  match pubArxSearch with
  | Except.error e => Except.error e
  | Except.ok pubArts =>
    let bioArts : List Article :=
      if listContainsStr databases (chars "biorxiv") && truthyOptStr query_biorxiv then
        match biorxivSearch with
        | Except.error _ => []
        | Except.ok none => []
        | Except.ok (some l) => l
      else []
    Except.ok (pubArts ++ bioArts)

/-- The three per-run search-result files, keyed by a date (modelled as a
day number: `strftime("%Y-%m-%d")` is injective on dates) and a suffix:
`{d}.json`, `{d}_biorxiv.json`, `{d}_pub_arx.json`. -/
inductive SearchSuffix where
  | base
  | biorxiv
  | pubArx
deriving DecidableEq

/-- The search files `PapersFinder.__init__` associates with date `d`. -/
def runFiles (d : Int) : List (Int × SearchSuffix) :=
  [(d, SearchSuffix.base), (d, SearchSuffix.biorxiv), (d, SearchSuffix.pubArx)]

/-- `self.yesterday = self.today - timedelta(days=since if since is not None else 1)`. -/
def finderYesterday (today : Int) (since : Option Int) : Int :=
  today - since.getD 1

/-- The files `PapersFinder.cleanup_files` targets for deletion: the three
search files keyed by `yesterday_str`. -/
def cleanupTargets (today : Int) (since : Option Int) : List (Int × SearchSuffix) :=
  runFiles (finderYesterday today since)

/- ------------------------------------------------------------------
   Relevance filter: `LLMFilter.is_relevant` (llm_filtering.py).
   ------------------------------------------------------------------ -/

/-- The two backend clients distinguished by `isinstance` checks. -/
inductive LLMClient where
  | openai
  | ollama
deriving DecidableEq

/-- Python errors `is_relevant` can surface: an uncaught backend exception,
or the `UnboundLocalError` from reading an unassigned `keywords_list`. -/
inductive PyErr where
  | backendErr
  | unboundLocal
deriving DecidableEq

/-- The `keywords` argument of `is_relevant`: a list of strings or (as
passed by `filter_articles` from the processed `Keywords` column) a
comma-joined string. -/
inductive KwArg where
  | list (l : List Str)
  | str (s : Str)
deriving DecidableEq

/-- Python truthiness of the `keywords` argument. -/
def truthyKw : Option KwArg → Bool
  | none => false
  | some (KwArg.list l) => !l.isEmpty
  | some (KwArg.str s) => truthyStr s

/-- `[kw.strip() for kw in keywords.split(',') if kw.strip()]`. -/
def splitCommaClean (s : Str) : List Str :=
  ((splitChar ',' s).map stripWs).filter (fun k => !k.isEmpty)

/-- The local `keywords_list` of `is_relevant`: `none` means the variable
was never assigned (the `if keywords:` guard was false). -/
def keywordsListOf : Option KwArg → Option (List Str)
  | some (KwArg.str s) => if truthyStr s then some (splitCommaClean s) else none
  | some (KwArg.list l) => if !l.isEmpty then some l else none
  | none => none

/-- The words whose presence in the lowered reply marks acceptance. -/
def acceptWords : List Str :=
  [chars "yes", chars "relevant", chars "accept", chars "include", chars "interesting"]

/-- The words whose presence in the lowered reply marks rejection. -/
def rejectWords : List Str :=
  [chars "no", chars "not relevant", chars "reject", chars "exclude", chars "unrelated"]

/-- `any(word in content_lower for word in ws)`. -/
def containsAnyWord (cl : Str) (ws : List Str) : Bool :=
  ws.any (fun w => strContains cl w)

/-- The decision part of `is_relevant` (llm_filtering.py lines 128-148),
given the (possibly unassigned) `keywords_list` and the reply content.
The accept branch and the reject branch both interpolate
`', '.join(keywords_list)` into their log line, which raises
`UnboundLocalError` when `keywords_list` was never assigned. -/
def decideFromContent (kwl : Option (List Str)) (content : Option Str) : Except PyErr Bool :=
  match content with
  | none => Except.ok true
  | some c =>
    let cl := lowerStr c
    if containsAnyWord cl acceptWords then
      match kwl with
      | none => Except.error PyErr.unboundLocal
      | some _ => Except.ok true
    else if containsAnyWord cl rejectWords then
      match kwl with
      | none => Except.error PyErr.unboundLocal
      | some _ => Except.ok false
    else Except.ok true

/-- `LLMFilter.is_relevant`.  `backendReply` models the backend call:
`Except.error` is a raised exception, `Except.ok c` a reply whose content
is `c` (possibly `None`).  The OpenAI branch wraps its call in
`try/except` and returns `True` on error; the Ollama branch has no
`try/except`, so its error propagates. -/
def is_relevant (client : LLMClient) (backendReply : Except Unit (Option Str))
    (keywords : Option KwArg) : Except PyErr Bool :=
  let kwl := keywordsListOf keywords
  match client, backendReply with
  | LLMClient.ollama, Except.error _ => Except.error PyErr.backendErr
  | LLMClient.openai, Except.error _ => Except.ok true
  | _, Except.ok content => decideFromContent kwl content

deriving instance DecidableEq for Except

/- ------------------------------------------------------------------
   Helper lemmas.
   ------------------------------------------------------------------ -/

/-- `findSub` finds the first occurrence: the pattern matches at the
returned index and at no earlier index. -/
theorem findSub_first (pat : Str) :
    ∀ (s : Str) (i : Nat), findSub pat s = some i →
      startsWith pat (s.drop i) = true ∧ ∀ j, j < i → startsWith pat (s.drop j) = false := by
  intro s
  induction s with
  | nil =>
    intro i h
    by_cases hp : startsWith pat [] = true
    · simp [findSub, hp] at h
      subst h
      exact ⟨hp, by omega⟩
    · simp [findSub, hp] at h
  | cons c rest ih =>
    intro i h
    by_cases hp : startsWith pat (c :: rest) = true
    · simp [findSub, hp] at h
      subst h
      exact ⟨hp, by omega⟩
    · simp [findSub, hp] at h
      obtain ⟨i', hf, hi⟩ := h
      subst hi
      obtain ⟨h1, h2⟩ := ih i' hf
      refine ⟨by simpa using h1, ?_⟩
      intro j hj
      cases j with
      | zero => simpa using hp
      | succ j' => simpa using h2 j' (by omega)

/-- The two halves of a boolean filter partition the list's length. -/
theorem length_filter_add_length_filter_not (p : Article × Bool → Bool)
    (l : List (Article × Bool)) :
    (l.filter p).length + (l.filter (fun a => !p a)).length = l.length := by
  induction l with
  | nil => simp
  | cons a t ih =>
    by_cases h : p a = true <;> simp [List.filter_cons, h, ← ih] <;> omega

/-- The resolution loop is a stable partition: folding `stageStep` over
the articles appends, to each accumulator, the resolved articles whose
flag selects that accumulator, in input order. -/
theorem stage_fold (oracle : Str → Option Str) (arts : List Article) :
    ∀ w wo : List Article,
      arts.foldl (stageStep oracle) (w, wo)
        = (w ++ ((arts.map (resolveArticle oracle)).filter (fun r => r.2)).map Prod.fst,
            wo ++ ((arts.map (resolveArticle oracle)).filter (fun r => !r.2)).map Prod.fst) := by
  induction arts with
  | nil => intro w wo; simp
  | cons a rest ih =>
    intro w wo
    simp only [List.foldl_cons, List.map_cons, List.filter_cons]
    cases h : (resolveArticle oracle a).2 <;>
      simp [stageStep, h, ih, List.append_assoc]

/-- A prefix on which `f` always fails does not change `findSome?`. -/
theorem findSome?_eq_of_prepend_none (f : Str → Option Str) :
    ∀ (pre : List Str), (∀ v ∈ pre, f v = none) →
      ∀ l, List.findSome? f (pre ++ l) = List.findSome? f l := by
  intro pre
  induction pre with
  | nil => intro _ l; rfl
  | cons v t ih =>
    intro h l
    simp only [List.cons_append, List.findSome?_cons, h v (by simp)]
    exact ih (fun u hu => h u (by simp [hu])) l

/- ------------------------------------------------------------------
   Claims.
   ------------------------------------------------------------------ -/

/-- C6: the Normalizer's DOI column is the substring of the resolved URL
starting at the first occurrence of `"10."` (the pattern matches at the
cut point and nowhere earlier); the round-trip example yields
`"10.1101/2024.01.01.123456"`; and a URL without `"10."` yields an
empty/garbage DOI (at most one stray character) rather than a crash. -/
theorem c6_doi_is_suffix_at_first_ten :
    (∀ url i, findSub (chars "10.") url = some i →
        extract_doi url = url.drop i ∧
        startsWith (chars "10.") (url.drop i) = true ∧
        (∀ j, j < i → startsWith (chars "10.") (url.drop j) = false))
    ∧ extract_doi (chars "https://doi.org/10.1101/2024.01.01.123456")
        = chars "10.1101/2024.01.01.123456"
    ∧ (∀ url, findSub (chars "10.") url = none → (extract_doi url).length ≤ 1) := by
  refine ⟨?_, by decide, ?_⟩
  · intro url i h
    have hs := findSub_first (chars "10.") url i h
    refine ⟨?_, hs.1, hs.2⟩
    unfold extract_doi pyFind
    rw [h]
    simp [pySliceFrom]
  · intro url h
    unfold extract_doi pyFind
    rw [h]
    simp only [pySliceFrom]
    rw [if_neg (by omega)]
    rw [List.length_drop]
    omega

/-- C6 witness: concrete application at a URL whose first `"10."` is at
index 16. -/
theorem c6_witness :
    findSub (chars "10.") (chars "https://doi.org/10.77/z") = some 16 ∧
    extract_doi (chars "https://doi.org/10.77/z")
      = (chars "https://doi.org/10.77/z").drop 16 :=
  ⟨by decide, (c6_doi_is_suffix_at_first_ten.1 (chars "https://doi.org/10.77/z") 16 (by decide)).1⟩

/-- C7: the `IsPreprint` cell is `"FALSE"` iff the record's database-tag
list contains `"PubMed"`, and `"TRUE"` otherwise. -/
theorem c7_preprint_iff_not_pubmed (dbs : List Str) :
    (determine_preprint_status dbs = chars "FALSE" ↔ (chars "PubMed") ∈ dbs)
    ∧ ((chars "PubMed") ∉ dbs → determine_preprint_status dbs = chars "TRUE") := by
  unfold determine_preprint_status listContainsStr
  by_cases h : (chars "PubMed") ∈ dbs
  · simp [h]
  · simp [h]
    decide

/-- C7 witness: concrete database-tag lists on both sides of the iff. -/
theorem c7_witness :
    determine_preprint_status [chars "PubMed"] = chars "FALSE" ∧
    determine_preprint_status [chars "bioRxiv"] = chars "TRUE" :=
  ⟨(c7_preprint_iff_not_pubmed [chars "PubMed"]).1.mpr (by decide),
    (c7_preprint_iff_not_pubmed [chars "bioRxiv"]).2 (by decide)⟩

/-- C8: the Normalizer on empty input returns zero rows with the full
nine-column canonical schema in the fixed order (and, being a total
function of the input, raises no error); the schema hard-coded for the
empty case coincides with the one selected by `select_last_columns`, and
every output frame — empty or not — carries its columns in exactly this
order. -/
theorem c8_canonical_schema (today : Str) :
    articlesProcessor [] today = { header := emptyColumns, rows := [] }
    ∧ emptyColumns = finalColumns
    ∧ finalColumns = [chars "DOI", chars "Date", chars "PostedDate", chars "IsPreprint",
        chars "Title", chars "Keywords", chars "Source", chars "Preprint", chars "URL"]
    ∧ finalColumns.length = 9
    ∧ ∀ arts : List Article, (articlesProcessor arts today).header = finalColumns := by
  refine ⟨by simp [articlesProcessor], by decide, by decide, by decide, ?_⟩
  intro arts
  cases arts with
  | nil => simp [articlesProcessor]; rfl
  | cons a t => simp [articlesProcessor]

/-- C1: for every non-empty raw record list, the identifier-resolution
stage is a stable partition — all records resolved by strategies 1–3
(`articles_with_urls`) precede all strategy-4 records
(`articles_without_urls`), each group in original relative order — and
the Normalizer then emits exactly one canonical row per staged record,
in that order. -/
theorem c1_stage_partition_and_rows (oracle : Str → Option Str) (arts : List Article)
    (today : Str) (_hne : arts ≠ []) :
    identifierStage oracle arts
      = ((arts.map (resolveArticle oracle)).filter (fun r => r.2)).map Prod.fst
        ++ ((arts.map (resolveArticle oracle)).filter (fun r => !r.2)).map Prod.fst
    ∧ (articlesProcessor (identifierStage oracle arts) today).rows
        = (identifierStage oracle arts).map (canonicalRow today)
    ∧ (identifierStage oracle arts).length = arts.length := by
  have hstage : identifierStage oracle arts
      = ((arts.map (resolveArticle oracle)).filter (fun r => r.2)).map Prod.fst
        ++ ((arts.map (resolveArticle oracle)).filter (fun r => !r.2)).map Prod.fst := by
    unfold identifierStage
    rw [stage_fold oracle arts [] []]
    simp
  refine ⟨hstage, ?_, ?_⟩
  · by_cases h : (identifierStage oracle arts).isEmpty
    · rw [List.isEmpty_iff] at h
      simp [articlesProcessor, h]
    · simp [articlesProcessor, h]
  · rw [hstage]
    rw [List.length_append, List.length_map, List.length_map]
    have hlen := length_filter_add_length_filter_not (fun r => r.2)
      (arts.map (resolveArticle oracle))
    rw [List.length_map] at hlen
    omega

/-- A one-record input used to witness C1. -/
def c1SampleArticle : Article :=
  { title := chars "A", publication_date := chars "2024-01-01",
    databases := [chars "PubMed"], keywords := KeywordsField.list [chars "ml"],
    urls := [], doi := some (chars "10.1/x"), DOI := none, url := [] }

/-- C1 witness: concrete application on a one-record list. -/
theorem c1_witness :
    ([c1SampleArticle] : List Article) ≠ [] ∧
    (identifierStage (fun _ => none) [c1SampleArticle]
        = (([c1SampleArticle].map (resolveArticle (fun _ => none))).filter
            (fun r => r.2)).map Prod.fst
          ++ (([c1SampleArticle].map (resolveArticle (fun _ => none))).filter
            (fun r => !r.2)).map Prod.fst
      ∧ (articlesProcessor (identifierStage (fun _ => none) [c1SampleArticle])
            (chars "2024-01-02")).rows
          = (identifierStage (fun _ => none) [c1SampleArticle]).map
              (canonicalRow (chars "2024-01-02"))
      ∧ (identifierStage (fun _ => none) [c1SampleArticle]).length
          = ([c1SampleArticle] : List Article).length) :=
  ⟨by simp,
    c1_stage_partition_and_rows (fun _ => none) [c1SampleArticle] (chars "2024-01-02") (by simp)⟩

/-- C2 counterexample: the reply `"Not relevant"` contains the reject
keyword `"not relevant"` (and `"no"`), yet `is_relevant` accepts it,
because the accept-keyword check runs first and `"relevant"` is an
accept keyword. -/
theorem c2_counterexample :
    is_relevant LLMClient.openai (Except.ok (some (chars "Not relevant")))
        (some (KwArg.list [chars "ml"])) = Except.ok true
    ∧ containsAnyWord (lowerStr (chars "Not relevant")) rejectWords = true
    ∧ (Except.ok true : Except PyErr Bool) ≠ Except.ok false := by decide

/-- C2 (amended): the keyword checks are ordered — a reply containing
any accept keyword is accepted; a reply containing a reject keyword is
rejected only when it contains no accept keyword; an ambiguous reply is
accepted.  Stated for assigned keywords (the `keywords` argument truthy)
so that the logging line does not raise. -/
theorem c2_ordered_keyword_decision (client : LLMClient) (content : Str) (kw : Option KwArg)
    (hkw : keywordsListOf kw ≠ none) :
    (containsAnyWord (lowerStr content) acceptWords = true →
        is_relevant client (Except.ok (some content)) kw = Except.ok true)
    ∧ (containsAnyWord (lowerStr content) acceptWords = false →
        containsAnyWord (lowerStr content) rejectWords = true →
        is_relevant client (Except.ok (some content)) kw = Except.ok false)
    ∧ (containsAnyWord (lowerStr content) acceptWords = false →
        containsAnyWord (lowerStr content) rejectWords = false →
        is_relevant client (Except.ok (some content)) kw = Except.ok true) := by
  obtain ⟨l, hl⟩ : ∃ l, keywordsListOf kw = some l := by
    cases hk : keywordsListOf kw with
    | none => exact absurd hk hkw
    | some l => exact ⟨l, rfl⟩
  refine ⟨?_, ?_, ?_⟩
  · intro h1
    cases client <;> simp [is_relevant, decideFromContent, hl, h1]
  · intro h1 h2
    cases client <;> simp [is_relevant, decideFromContent, hl, h1, h2]
  · intro h1 h2
    cases client <;> simp [is_relevant, decideFromContent, hl, h1, h2]

/-- C2 witness: the reply `"Reject"` (no accept keyword present) is
rejected when keywords are assigned. -/
theorem c2_witness :
    keywordsListOf (some (KwArg.list [chars "k"])) ≠ none ∧
    containsAnyWord (lowerStr (chars "Reject")) acceptWords = false ∧
    containsAnyWord (lowerStr (chars "Reject")) rejectWords = true ∧
    is_relevant LLMClient.openai (Except.ok (some (chars "Reject")))
      (some (KwArg.list [chars "k"])) = Except.ok false :=
  ⟨by decide, by decide, by decide,
    (c2_ordered_keyword_decision LLMClient.openai (chars "Reject")
        (some (KwArg.list [chars "k"])) (by decide)).2.1 (by decide) (by decide)⟩

/-- C4 counterexample: with the Ollama provider a backend error is not
caught — `is_relevant` surfaces the error instead of accepting. -/
theorem c4_counterexample :
    is_relevant LLMClient.ollama (Except.error ()) (some (KwArg.list [chars "k"]))
        = Except.error PyErr.backendErr
    ∧ (Except.error PyErr.backendErr : Except PyErr Bool) ≠ Except.ok true := by decide

/-- C4 (amended): the fail-open default applies only to the OpenAI
provider — its backend errors are caught and yield accept; an Ollama
backend error propagates out of `is_relevant`. -/
theorem c4_fail_open_openai_only (kw : Option KwArg) :
    is_relevant LLMClient.openai (Except.error ()) kw = Except.ok true
    ∧ is_relevant LLMClient.ollama (Except.error ()) kw = Except.error PyErr.backendErr :=
  ⟨rfl, rfl⟩

/-- C5: in the separate-queries flow, a bioRxiv sub-search failure is
caught and the run continues with zero bioRxiv results (the primary
results are still returned), while a primary (non-bioRxiv) search
failure propagates. -/
theorem c5_biorxiv_failure_degrades (dbs : List Str) (q : Option Str)
    (pubArts : List Article) (bio : Except Unit (Option (List Article)))
    (h1 : listContainsStr dbs (chars "biorxiv") = true)
    (h2 : truthyOptStr q = true) :
    separateSearch dbs q (Except.ok pubArts) (Except.error ()) = Except.ok (pubArts ++ [])
    ∧ separateSearch dbs q (Except.error ()) bio = Except.error () := by
  constructor
  · simp [separateSearch, h1, h2]
  · rfl

/-- C5 witness: concrete databases, query and search outcomes. -/
theorem c5_witness :
    listContainsStr [chars "biorxiv"] (chars "biorxiv") = true ∧
    truthyOptStr (some (chars "q")) = true ∧
    (separateSearch [chars "biorxiv"] (some (chars "q")) (Except.ok []) (Except.error ())
        = Except.ok ([] ++ [])
      ∧ separateSearch [chars "biorxiv"] (some (chars "q")) (Except.error ()) (Except.error ())
        = Except.error ()) :=
  ⟨by decide, by decide,
    c5_biorxiv_failure_degrades [chars "biorxiv"] (some (chars "q")) [] (Except.error ())
      (by decide) (by decide)⟩

/-- C9 counterexample: `since = 0` is accepted by the constructor (no
validation on `since`), makes `yesterday_str` equal `today_str`, and the
cleanup step then targets exactly the current run's files. -/
theorem c9_counterexample :
    cleanupTargets 0 (some 0) = runFiles 0 ∧ runFiles (0 : Int) ≠ [] := by decide

/-- C9 (amended): the cleanup step removes exactly the files keyed by
the date `today − since` days (`since` defaulting to 1); whenever
`since ≠ 0` these are disjoint from the current run's files, and for the
default `since = 1` they are precisely the previous day's files. -/
theorem c9_cleanup_keyed_by_since (today : Int) (since : Option Int)
    (h : since.getD 1 ≠ 0) :
    cleanupTargets today since = runFiles (today - since.getD 1)
    ∧ (∀ f ∈ cleanupTargets today since, f ∉ runFiles today)
    ∧ (since.getD 1 = 1 → cleanupTargets today since = runFiles (today - 1)) := by
  refine ⟨rfl, ?_, ?_⟩
  · intro f hf
    simp only [cleanupTargets, runFiles, finderYesterday, List.mem_cons,
      List.not_mem_nil, or_false] at hf ⊢
    rcases hf with h1 | h1 | h1 <;> subst h1 <;>
      simp only [Prod.mk.injEq, not_or] <;>
      refine ⟨?_, ?_, ?_⟩ <;> simp <;> omega
  · intro h1
    simp [cleanupTargets, finderYesterday, h1]

/-- C9 witness: a run with `since = 3`. -/
theorem c9_witness :
    ((some 3 : Option Int).getD 1 ≠ 0) ∧
    (cleanupTargets 10 (some 3) = runFiles (10 - (some 3 : Option Int).getD 1)
      ∧ (∀ f ∈ cleanupTargets 10 (some 3), f ∉ runFiles 10)
      ∧ ((some 3 : Option Int).getD 1 = 1 → cleanupTargets 10 (some 3) = runFiles (10 - 1))) :=
  ⟨by decide, c9_cleanup_keyed_by_since 10 (some 3) (by decide)⟩

/-- C10: when the `keywords` argument is falsy, `keywords_list` is never
assigned, so a reply containing an accept or a reject keyword makes
`is_relevant` raise `UnboundLocalError` from the logging line instead of
returning a decision; only an ambiguous reply returns (accept). -/
theorem c10_unbound_keywords_list (client : LLMClient) (content : Str) (kw : Option KwArg)
    (hkw : truthyKw kw = false) :
    ((containsAnyWord (lowerStr content) acceptWords = true ∨
        containsAnyWord (lowerStr content) rejectWords = true) →
      is_relevant client (Except.ok (some content)) kw = Except.error PyErr.unboundLocal)
    ∧ (containsAnyWord (lowerStr content) acceptWords = false →
        containsAnyWord (lowerStr content) rejectWords = false →
        is_relevant client (Except.ok (some content)) kw = Except.ok true) := by
  have hkwl : keywordsListOf kw = none := by
    cases kw with
    | none => rfl
    | some k =>
      cases k with
      | list l =>
        simp only [truthyKw] at hkw
        simp [keywordsListOf, hkw]
      | str s =>
        simp only [truthyKw] at hkw
        simp [keywordsListOf, hkw]
  constructor
  · rintro (h1 | h1)
    · cases client <;> simp [is_relevant, decideFromContent, hkwl, h1]
    · by_cases h2 : containsAnyWord (lowerStr content) acceptWords = true
      · cases client <;> simp [is_relevant, decideFromContent, hkwl, h2]
      · rw [Bool.not_eq_true] at h2
        cases client <;> simp [is_relevant, decideFromContent, hkwl, h1, h2]
  · intro h1 h2
    cases client <;> simp [is_relevant, decideFromContent, hkwl, h1, h2]

/-- C10 witness: a clear accept reply with absent keywords raises. -/
theorem c10_witness :
    truthyKw none = false ∧
    containsAnyWord (lowerStr (chars "yes")) acceptWords = true ∧
    is_relevant LLMClient.openai (Except.ok (some (chars "yes"))) none
      = Except.error PyErr.unboundLocal :=
  ⟨by decide, by decide,
    (c10_unbound_keywords_list LLMClient.openai (chars "yes") none (by decide)).1
      (Or.inl (by decide))⟩

/-- C3 counterexample: the candidate list holds a `/doi/10.` URL before a
URL containing both `doi.org` and `/10.`; the resolver (scanning
URL-by-URL, not check-by-check over the whole list) resolves to the
reconstruction from the earlier URL, not to the first URL of the first
kind, refuting the claimed global priority. -/
theorem c3_counterexample :
    (resolveArticle (fun _ => none)
        { title := chars "T", publication_date := chars "2024-01-01",
          databases := [chars "bioRxiv"], keywords := KeywordsField.other,
          urls := [chars "http://x.com/doi/10.5/abc", chars "https://doi.org/10.1/xyz"],
          doi := none, DOI := none, url := [] }).1.url
      = chars "https://doi.org/10.5/abc"
    ∧ strContains (chars "https://doi.org/10.1/xyz") (chars "doi.org") = true
    ∧ strContains (chars "https://doi.org/10.1/xyz") (chars "/10.") = true
    ∧ chars "https://doi.org/10.5/abc" ≠ chars "https://doi.org/10.1/xyz" := by decide

/-- C3 (amended): the candidate URLs are scanned in list order and the
first URL on which any of the three checks succeeds determines the
resolution; the `doi.org`-with-`/10.` form takes priority over the
`/doi/10.` reconstruction and the `dx.doi.org` rewrite only within a
single URL (such a URL is accepted unchanged). -/
theorem c3_first_matching_url_wins (pre : List Str) (u : Str) (rest : List Str) (r : Str)
    (hpre : ∀ v ∈ pre, resolveUrlDoi v = none)
    (hu : resolveUrlDoi u = some r) :
    strategy2 (pre ++ u :: rest) = some r
    ∧ (∀ w, strContains w (chars "doi.org") = true → strContains w (chars "/10.") = true →
        resolveUrlDoi w = some w) := by
  constructor
  · unfold strategy2
    rw [findSome?_eq_of_prepend_none resolveUrlDoi pre hpre]
    simp [List.findSome?_cons, hu]
  · intro w hw1 hw2
    simp [resolveUrlDoi, hw1, hw2]

/-- C3 witness: a non-matching URL followed by a proper DOI link. -/
theorem c3_witness :
    (∀ v ∈ [chars "ftp://x"], resolveUrlDoi v = none) ∧
    resolveUrlDoi (chars "https://doi.org/10.9/a") = some (chars "https://doi.org/10.9/a") ∧
    strategy2 ([chars "ftp://x"] ++ (chars "https://doi.org/10.9/a") :: [])
      = some (chars "https://doi.org/10.9/a") :=
  ⟨by decide, by decide,
    (c3_first_matching_url_wins [chars "ftp://x"] (chars "https://doi.org/10.9/a") []
        (chars "https://doi.org/10.9/a") (by decide) (by decide)).1⟩
